import Mathlib

/-!
Shallow embedding of the patient-management service in `main.py`.

Modelling conventions:
* Python floats are modelled as rationals (`ℚ`); the numeric literals of the
  program (`18.5`, `24.9`, `29.9`, thresholds and field bounds) are exact
  decimals, and every comparison the program performs is between such a
  value and a computed quantity, so the rational model tracks the branch
  structure of the source.
* Python dicts are association lists `List (String × _)` with in-place
  update (`alSet`), first-match lookup (`alGet`) and key removal
  (`alErase`), matching insertion-ordered dict semantics.
* A raised exception that no handler catches is an `Except.error`;
  `ZeroDivisionError` from the BMI computation is `Option.none` at the
  point of `model_dump` and surfaces as `ApiError.arithmeticFault` in
  `add_patient` (uncaught there) and as `ApiError.validationError` in
  `update_patient` (caught by its `except Exception` block).
* FastAPI/pydantic validate a request body before the handler runs, so the
  operations check field constraints first.
* Pydantic v2 `model_dump` includes `@computed_field` values, so the body
  written to the store contains `bmi` and `bmi_category` alongside the six
  declared fields; `Patient(**d)` ignores extra keys (default config).
-/

namespace PatientApp

/-- The `Literal["male","female","other"]` gender type of `Patient`. -/
inductive Gender
  | male
  | female
  | other
deriving DecidableEq, Repr

/-- Serialisation of a gender to its wire string. -/
def Gender.str : Gender → String
  | .male => "male"
  | .female => "female"
  | .other => "other"

/-- A validated `Patient` model instance: the typed fields of the pydantic
`Patient` class (id plus the six stored fields). -/
structure Patient where
  id : String
  name : String
  city : String
  age : Int
  gender : Gender
  height : ℚ
  weight : ℚ
deriving DecidableEq, Repr

/-- The pydantic `Field` range constraints of `Patient`:
`age` has `ge=0, le=120`, `height` has `ge=0`, `weight` has `ge=0`.
`name` and `city` are plain `str` fields with no content constraint. -/
def Patient.validB (p : Patient) : Bool :=
  decide (0 ≤ p.age) && decide (p.age ≤ 120) && decide (0 ≤ p.height) && decide (0 ≤ p.weight)

/-- Python `round` to an integer: round-half-to-even (banker rounding). -/
def roundHalfEven (q : ℚ) : ℤ :=
  let n := ⌊q⌋
  let r := q - n
  if r < 1/2 then n
  else if 1/2 < r then n + 1
  else if n % 2 = 0 then n
  else n + 1

/-- Python `round(x, 2)`: round to two decimal places. -/
def round2 (q : ℚ) : ℚ :=
  (roundHalfEven (q * 100) : ℚ) / 100

/-- The value `round(weight / height**2, 2)` computed by `Patient.bmi`,
meaningful when `height ≠ 0`. -/
def Patient.bmiValue (p : Patient) : ℚ :=
  round2 (p.weight / p.height ^ 2)

/-- The `bmi` computed field: `round(self.weight / (self.height ** 2), 2)`.
Evaluating it with `height == 0` raises `ZeroDivisionError`, modelled as
`none`. -/
def Patient.bmi (p : Patient) : Option ℚ :=
  if p.height = 0 then none else some p.bmiValue

/-- The threshold chain of the `bmi_category` computed field, as a function
of the bmi value. -/
def bmiCategory (b : ℚ) : String :=
  if b < 18.5 then "Underweight"
  else if b < 24.9 then "Normal weight"
  else if b < 29.9 then "Overweight"
  else "Obesity"

/-- The `bmi_category` computed field of a patient (faults with the bmi). -/
def Patient.bmi_category (p : Patient) : Option String :=
  p.bmi.map bmiCategory

/-- A JSON-ish scalar stored in a record body. -/
inductive Value
  | str (s : String)
  | int (n : ℤ)
  | rat (q : ℚ)
deriving DecidableEq, Repr

/-- A record body: a Python dict, insertion ordered. -/
abbrev Obj := List (String × Value)

/-- First-match lookup, `d[k]` / `k in d`. -/
def alGet {α : Type} : List (String × α) → String → Option α
  | [], _ => none
  | (k, v) :: rest, key => if k = key then some v else alGet rest key

/-- Dict assignment `d[k] = v`: replace in place if the key exists,
append otherwise. -/
def alSet {α : Type} : List (String × α) → String → α → List (String × α)
  | [], key, val => [(key, val)]
  | (k, v) :: rest, key, val =>
    if k = key then (k, val) :: rest else (k, v) :: alSet rest key val

/-- Dict deletion `del d[k]` (keys are unique in a dict, so removing every
binding of the key agrees with removing the one entry). -/
def alErase {α : Type} : List (String × α) → String → List (String × α)
  | [], _ => []
  | (k, v) :: rest, key =>
    if k = key then alErase rest key else (k, v) :: alErase rest key

/-- The dict produced by `patient.model_dump(exclude=["id"])` when the bmi
computation succeeds: the six stored fields followed by the two computed
fields, in declaration order. -/
def Patient.dumpBody (p : Patient) : Obj :=
  [("name", .str p.name), ("city", .str p.city), ("age", .int p.age),
   ("gender", .str p.gender.str), ("height", .rat p.height), ("weight", .rat p.weight),
   ("bmi", .rat p.bmiValue), ("bmi_category", .str (bmiCategory p.bmiValue))]

/-- Semantics of `patient.model_dump(exclude=["id"])`: computing the `bmi` computed field
raises `ZeroDivisionError` when `height == 0` (`none`); otherwise the full
dumped dict. -/
def Patient.model_dump (p : Patient) : Option Obj :=
  if p.height = 0 then none else some p.dumpBody

/-- The persisted store `patients.json`: a dict from patient id to body. -/
abbrev Store := List (String × Obj)

/-- The error taxonomy of the service (HTTP details abstracted away). -/
inductive ApiError
  | notFound
  | alreadyExists
  | validationError
  | invalidArgument
  | arithmeticFault
deriving DecidableEq, Repr

/-- The store that is on disk after an operation: a mutating handler only
calls `save_data` on its success path, so an error leaves the file as it
was. -/
def stateAfter (s : Store) (r : Except ApiError Store) : Store :=
  match r with
  | .ok s2 => s2
  | .error _ => s

/-- Handler of `GET /patient/{patient_id}` (`view_patient`): return the stored body or
404. -/
def view_patient (s : Store) (id : String) : Except ApiError Obj :=
  match alGet s id with
  | some body => .ok body
  | none => .error .notFound

/-- Handler of `POST /add_patient` (`add_patient`). Pydantic validates the `Patient`
body before the handler runs; the handler then rejects duplicate ids,
dumps the model (which can fault on zero height) and writes the body. -/
def add_patient (s : Store) (p : Patient) : Except ApiError Store :=
  if ¬ p.validB then .error .validationError
  else if (alGet s p.id).isSome then .error .alreadyExists
  else
    match p.model_dump with
    | none => .error .arithmeticFault
    | some body => .ok (alSet s p.id body)

/-- Handler of `DELETE /delete_patient/{patient_id}` (`delete_patient`). -/
def delete_patient (s : Store) (id : String) : Except ApiError Store :=
  if (alGet s id).isSome then .ok (alErase s id) else .error .notFound

/-- The `PatientUpdate` model: every field optional. The outer `Option` is
the pydantic set/unset flag (`exclude_unset`), the inner one is the value
(`None` or a typed value). -/
structure PatientUpdate where
  name : Option (Option String) := none
  city : Option (Option String) := none
  age : Option (Option Int) := none
  gender : Option (Option Gender) := none
  height : Option (Option ℚ) := none
  weight : Option (Option ℚ) := none
deriving DecidableEq, Repr

/-- The pydantic constraints of `PatientUpdate`: the same range checks as
`Patient`, applied only to fields supplied with a non-null value. -/
def PatientUpdate.validB (u : PatientUpdate) : Bool :=
  (match u.age with
   | some (some a) => decide (0 ≤ a) && decide (a ≤ 120)
   | _ => true) &&
  (match u.height with
   | some (some h) => decide (0 ≤ h)
   | _ => true) &&
  (match u.weight with
   | some (some w) => decide (0 ≤ w)
   | _ => true)

/-- One iteration of the update loop: for a field of
`patient.model_dump(exclude_unset=True)`, assign `existing[key] = value`
iff the field was set and its value is not `None`. -/
def applyField (o : Obj) (k : String) (v : Option (Option Value)) : Obj :=
  match v with
  | some (some x) => alSet o k x
  | _ => o

/-- The merge loop of `update_patient`, unrolled over the six fields in
declaration order (the iteration order of the dumped dict). -/
def mergeObj (o : Obj) (u : PatientUpdate) : Obj :=
  applyField (applyField (applyField (applyField (applyField (applyField o
    "name" (u.name.map (Option.map .str)))
    "city" (u.city.map (Option.map .str)))
    "age" (u.age.map (Option.map .int)))
    "gender" (u.gender.map (Option.map (fun g => .str g.str))))
    "height" (u.height.map (Option.map .rat)))
    "weight" (u.weight.map (Option.map .rat))

/-- Reading a `str`-typed pydantic field from a dict entry. -/
def asStr : Value → Option String
  | .str s => some s
  | _ => none

/-- Reading an `int`-typed pydantic field from a dict entry. -/
def asInt : Value → Option Int
  | .int n => some n
  | _ => none

/-- Reading a `float`-typed pydantic field from a dict entry (an int
coerces). -/
def asNum : Value → Option ℚ
  | .rat q => some q
  | .int n => some (n : ℚ)
  | _ => none

/-- Reading the gender literal from a dict entry. -/
def asGender : Value → Option Gender
  | .str s =>
    if s = "male" then some .male
    else if s = "female" then some .female
    else if s = "other" then some .other
    else none
  | _ => none

/-- Semantics of `Patient(**d)`: require the seven declared fields with their types,
ignore extra keys (default pydantic config), and enforce the range
constraints; any failure raises a validation exception (`none`). -/
def parsePatient (o : Obj) : Option Patient := do
  let id ← (alGet o "id").bind asStr
  let name ← (alGet o "name").bind asStr
  let city ← (alGet o "city").bind asStr
  let age ← (alGet o "age").bind asInt
  let gender ← (alGet o "gender").bind asGender
  let height ← (alGet o "height").bind asNum
  let weight ← (alGet o "weight").bind asNum
  let p : Patient := ⟨id, name, city, age, gender, height, weight⟩
  if p.validB then some p else none

/-- Handler of `PUT /update_patient/{patient_id}` (`update_patient`). Pydantic
validates the `PatientUpdate` body first; the handler then merges the
non-null supplied fields onto a copy of the stored body, re-attaches the
id, re-validates via `Patient(**existing)`, re-dumps and saves. Any
exception inside the `try` block (validation failure or the
`ZeroDivisionError` of a zero-height dump) is caught and reported as a
400 validation error. -/
def update_patient (s : Store) (id : String) (u : PatientUpdate) : Except ApiError Store :=
  if ¬ u.validB then .error .validationError
  else
    match alGet s id with
    | none => .error .notFound
    | some body =>
      let merged := alSet (mergeObj body u) "id" (.str id)
      match parsePatient merged with
      | none => .error .validationError
      | some p =>
        match p.model_dump with
        | none => .error .validationError
        | some newBody => .ok (alSet s id newBody)

/-- The overlay of a patch onto an existing record. Modelled from the
merge description of the spec (§4.2): for each field, if the caller supplied a
non-null value, overlay it; if omitted (or supplied as null), keep the
existing value. Used as the refinement target for `update_patient`. -/
def pick {α : Type} (x : Option (Option α)) (d : α) : α :=
  match x with
  | some (some v) => v
  | _ => d

/-- The spec-level merged record: every field supplied with a non-null
value is overlaid on the existing record, all other fields keep their
existing values; the identity is carried separately. -/
def overlay (p : Patient) (u : PatientUpdate) : Patient where
  id := p.id
  name := pick u.name p.name
  city := pick u.city p.city
  age := pick u.age p.age
  gender := pick u.gender p.gender
  height := pick u.height p.height
  weight := pick u.weight p.weight

/-- Turn an explicit null into an unset field. -/
def squash {α : Type} (x : Option (Option α)) : Option (Option α) :=
  match x with
  | some none => none
  | _ => x

/-- The patch with every explicitly-null field turned into an omitted
field. -/
def PatientUpdate.eraseNulls (u : PatientUpdate) : PatientUpdate where
  name := squash u.name
  city := squash u.city
  age := squash u.age
  gender := squash u.gender
  height := squash u.height
  weight := squash u.weight

/-- The sortable fields of `GET /sort`. -/
def validSortFields : List String := ["age", "bmi", "weight", "height"]

/-- Semantics of `x.get(sort_by, 0)` as a number: the sortable fields hold numeric
values in every body the service writes, and a missing key defaults
to `0`. -/
def getNum (o : Obj) (k : String) : ℚ :=
  match alGet o k with
  | some (.int n) => (n : ℚ)
  | some (.rat q) => q
  | _ => 0

/-- Stable insertion keeping the new element after existing `le`-equal
elements. -/
def insertStable {α : Type} (le : α → α → Bool) (x : α) : List α → List α
  | [] => [x]
  | y :: ys => if le y x then y :: insertStable le x ys else x :: y :: ys

/-- A stable sort wrt the boolean comparison `le`, as the Python `sorted`. -/
def stableSort {α : Type} (le : α → α → Bool) (l : List α) : List α :=
  l.foldl (fun acc x => insertStable le x acc) []

/-- Handler of `GET /sort` (`sort_patients`). Note that the line
`sort_order = True if order == "asc" else False` of the source is passed to `reverse=`,
so `asc` requests a reverse (descending) sort. -/
def sort_patients (s : Store) (sort_by : String) (order : String) : Except ApiError (List Obj) :=
  if sort_by ∉ validSortFields then .error .invalidArgument
  else if order ∉ ["asc", "desc"] then .error .invalidArgument
  else
    let rev := order = "asc"
    let vals := s.map Prod.snd
    let key := fun o => getNum o sort_by
    .ok (if rev then stableSort (fun a b => decide (key b ≤ key a)) vals
         else stableSort (fun a b => decide (key a ≤ key b)) vals)

/-- The running example patient of the spec (§8): id `P001`, Ann, height 1.6 m,
weight 60 kg. -/
def ann : Patient := ⟨"P001", "Ann", "X", 30, .female, 8/5, 60⟩

/-- A one-record store holding the dumped body of Ann under `P001`. -/
def annStore : Store := [("P001", ann.dumpBody)]

/-- A valid patient aged 30 (sorting fixture). -/
def pAge30 : Patient := ⟨"P1", "A", "X", 30, .male, 8/5, 60⟩

/-- A valid patient aged 10 (sorting fixture). -/
def pAge10 : Patient := ⟨"P2", "B", "X", 10, .male, 8/5, 50⟩

/-- A valid patient aged 20 (sorting fixture). -/
def pAge20 : Patient := ⟨"P3", "C", "X", 20, .male, 8/5, 70⟩

/-- A store whose records have ages [30, 10, 20] in insertion order. -/
def sortStore : Store := [("P1", pAge30.dumpBody), ("P2", pAge10.dumpBody), ("P3", pAge20.dumpBody)]

/-- A patient with valid ranges but `height = 0`. -/
def zeroHeightP : Patient := ⟨"PZ", "Zed", "X", 30, .female, 0, 60⟩

/-- A patient whose name and city are both the empty string, all other
fields in range. -/
def emptyNameP : Patient := ⟨"P9", "", "", 30, .male, 8/5, 60⟩

/-- A candidate with the already-used id `P001` and an out-of-range age. -/
def badAgeP : Patient := ⟨"P001", "Bob", "Y", 200, .male, 8/5, 60⟩

section Lemmas

theorem alGet_alSet_same {α : Type} (l : List (String × α)) (k : String) (v : α) :
    alGet (alSet l k v) k = some v := by
  induction l with
  | nil => simp [alSet, alGet]
  | cons kv rest ih =>
    obtain ⟨k0, v0⟩ := kv
    by_cases h : k0 = k
    · subst h
      simp [alSet, alGet]
    · simp [alSet, alGet, h, ih]

theorem alGet_alSet_ne {α : Type} (l : List (String × α)) {k q : String} (h : k ≠ q) (v : α) :
    alGet (alSet l k v) q = alGet l q := by
  induction l with
  | nil => simp [alSet, alGet, h]
  | cons kv rest ih =>
    obtain ⟨k0, v0⟩ := kv
    by_cases hk : k0 = k
    · subst hk
      simp [alSet, alGet, h, ih]
    · simp [alSet, alGet, hk, ih]

theorem alSet_of_alGet {α : Type} {l : List (String × α)} {k : String} {v : α}
    (h : alGet l k = some v) : alSet l k v = l := by
  induction l with
  | nil => simp [alGet] at h
  | cons kv rest ih =>
    obtain ⟨k0, v0⟩ := kv
    by_cases hk : k0 = k
    · subst hk
      simp [alGet] at h
      simp [alSet, h]
    · simp [alGet, hk] at h
      simp [alSet, hk, ih h]

theorem alGet_alErase {α : Type} (l : List (String × α)) (k : String) :
    alGet (alErase l k) k = none := by
  induction l with
  | nil => rfl
  | cons kv rest ih =>
    obtain ⟨k0, v0⟩ := kv
    by_cases h : k0 = k
    · simp [alErase, alGet, h, ih]
    · simp [alErase, alGet, h, ih]

theorem modelDump_eq_some {p : Patient} {b : Obj} (h : p.model_dump = some b) :
    b = p.dumpBody := by
  unfold Patient.model_dump at h
  split at h
  · exact absurd h (by simp)
  · exact (Option.some.inj h).symm

/-- The category thresholds, read off the `if` chain. -/
theorem bmiCategory_iff (b : ℚ) :
    (bmiCategory b = "Underweight" ↔ b < 18.5) ∧
    (bmiCategory b = "Normal weight" ↔ 18.5 ≤ b ∧ b < 24.9) ∧
    (bmiCategory b = "Overweight" ↔ 24.9 ≤ b ∧ b < 29.9) ∧
    (bmiCategory b = "Obesity" ↔ 29.9 ≤ b) := by
  unfold bmiCategory
  split_ifs with h1 h2 h3
  · exact ⟨iff_of_true rfl h1,
      iff_of_false (by decide) (by rintro ⟨h, _⟩; linarith),
      iff_of_false (by decide) (by rintro ⟨h, _⟩; linarith),
      iff_of_false (by decide) (by intro h; linarith)⟩
  · exact ⟨iff_of_false (by decide) h1,
      iff_of_true rfl ⟨not_lt.mp h1, h2⟩,
      iff_of_false (by decide) (by rintro ⟨h, _⟩; linarith),
      iff_of_false (by decide) (by intro h; linarith)⟩
  · exact ⟨iff_of_false (by decide) h1,
      iff_of_false (by decide) (by rintro ⟨_, h⟩; exact h2 h),
      iff_of_true rfl ⟨not_lt.mp h2, h3⟩,
      iff_of_false (by decide) (by intro h; linarith)⟩
  · exact ⟨iff_of_false (by decide) h1,
      iff_of_false (by decide) (by rintro ⟨_, h⟩; exact h2 h),
      iff_of_false (by decide) (by rintro ⟨_, h⟩; exact h3 h),
      iff_of_true rfl (not_lt.mp h3)⟩

/-- The merge loop applied to a dumped body: the six stored fields take
the overlaid values, the two derived entries are untouched (they are
replaced only by the re-dump after validation). -/
theorem mergeObj_dumpBody (p : Patient) (u : PatientUpdate) :
    mergeObj p.dumpBody u =
      [("name", Value.str (pick u.name p.name)), ("city", Value.str (pick u.city p.city)),
       ("age", Value.int (pick u.age p.age)),
       ("gender", Value.str (Gender.str (pick u.gender p.gender))),
       ("height", Value.rat (pick u.height p.height)),
       ("weight", Value.rat (pick u.weight p.weight)),
       ("bmi", Value.rat p.bmiValue), ("bmi_category", Value.str (bmiCategory p.bmiValue))] := by
  obtain ⟨n, c, a, g, h, w⟩ := u
  rcases n with _ | (_ | n) <;> rcases c with _ | (_ | c) <;> rcases a with _ | (_ | a) <;>
    rcases g with _ | (_ | g) <;> rcases h with _ | (_ | h) <;> rcases w with _ | (_ | w) <;> rfl

theorem alSet_fresh_id (v1 v2 v3 v4 v5 v6 v7 v8 vid : Value) :
    alSet [("name", v1), ("city", v2), ("age", v3), ("gender", v4), ("height", v5),
      ("weight", v6), ("bmi", v7), ("bmi_category", v8)] "id" vid =
    [("name", v1), ("city", v2), ("age", v3), ("gender", v4), ("height", v5),
      ("weight", v6), ("bmi", v7), ("bmi_category", v8), ("id", vid)] := rfl

theorem parsePatient_literal (id nm ct : String) (a : Int) (g : Gender) (h w bm : ℚ)
    (cat : String) :
    parsePatient [("name", .str nm), ("city", .str ct), ("age", .int a), ("gender", .str g.str),
      ("height", .rat h), ("weight", .rat w), ("bmi", .rat bm), ("bmi_category", .str cat),
      ("id", .str id)] =
    (if (Patient.mk id nm ct a g h w).validB then some (Patient.mk id nm ct a g h w)
     else none) := by
  cases g <;> rfl

theorem overlay_validB {p : Patient} {u : PatientUpdate} (hp : p.validB = true)
    (hu : u.validB = true) : (overlay p u).validB = true := by
  obtain ⟨n, c, a, g, h, w⟩ := u
  simp only [Patient.validB, Bool.and_eq_true, decide_eq_true_eq] at hp ⊢
  simp only [PatientUpdate.validB, Bool.and_eq_true] at hu
  rcases a with _ | (_ | a) <;> rcases h with _ | (_ | h) <;> rcases w with _ | (_ | w) <;>
    simp_all [overlay, pick]

/-- Evaluating `Patient(**existing)` on the merged dict yields exactly the overlay of
the patch onto the existing record, carrying the path id. -/
theorem parse_merged (p : Patient) (u : PatientUpdate) (id : String)
    (hv : (overlay p u).validB = true) :
    parsePatient (alSet (mergeObj p.dumpBody u) "id" (.str id)) =
      some (Patient.mk id (overlay p u).name (overlay p u).city (overlay p u).age
        (overlay p u).gender (overlay p u).height (overlay p u).weight) := by
  rw [mergeObj_dumpBody, alSet_fresh_id, parsePatient_literal]
  rw [if_pos (show (Patient.mk id (pick u.name p.name) (pick u.city p.city) (pick u.age p.age)
    (pick u.gender p.gender) (pick u.height p.height) (pick u.weight p.weight)).validB = true
    from hv)]
  rfl

theorem applyField_squash {α : Type} (o : Obj) (k : String) (x : Option (Option α))
    (f : α → Value) :
    applyField o k ((squash x).map (Option.map f)) = applyField o k (x.map (Option.map f)) := by
  rcases x with _ | (_ | v) <;> rfl

theorem mergeObj_eraseNulls (o : Obj) (u : PatientUpdate) :
    mergeObj o u.eraseNulls = mergeObj o u := by
  obtain ⟨n, c, a, g, h, w⟩ := u
  simp only [mergeObj, PatientUpdate.eraseNulls, applyField_squash]

theorem validB_eraseNulls (u : PatientUpdate) : u.eraseNulls.validB = u.validB := by
  obtain ⟨n, c, a, g, h, w⟩ := u
  rcases a with _ | (_ | a) <;> rcases h with _ | (_ | h) <;> rcases w with _ | (_ | w) <;> rfl

end Lemmas

/-- C3: the update merge overlays exactly the patch fields that were
supplied with a non-null value onto a copy of the existing record and
keeps every omitted field at its existing value (the resulting record is
`overlay p u`, re-validated and re-dumped); an empty patch leaves the
persisted store unchanged; a one-field patch (weight) changes only that
stored field, every other field keeping its pre-update value. -/
theorem update_merge_overlay (s : Store) (id : String) (p : Patient)
    (hs : alGet s id = some p.dumpBody) (hp : p.validB = true) (hh : p.height ≠ 0) :
    (∀ u : PatientUpdate, u.validB = true → (overlay p u).height ≠ 0 →
      update_patient s id u = .ok (alSet s id (overlay p u).dumpBody)) ∧
    update_patient s id {} = .ok s ∧
    (∀ w : ℚ, 0 ≤ w →
      update_patient s id { weight := some (some w) } =
        .ok (alSet s id (Patient.dumpBody { p with weight := w }))) := by
  have main : ∀ u : PatientUpdate, u.validB = true → (overlay p u).height ≠ 0 →
      update_patient s id u = .ok (alSet s id (overlay p u).dumpBody) := by
    intro u hu hoh
    have hv : (overlay p u).validB = true := overlay_validB hp hu
    have hpm := parse_merged p u id hv
    have hmk : Patient.model_dump (Patient.mk id (overlay p u).name (overlay p u).city
        (overlay p u).age (overlay p u).gender (overlay p u).height (overlay p u).weight) =
        some ((overlay p u).dumpBody) := by
      unfold Patient.model_dump
      rw [if_neg (show ¬ (Patient.mk id (overlay p u).name (overlay p u).city (overlay p u).age
        (overlay p u).gender (overlay p u).height (overlay p u).weight).height = 0 from hoh)]
      rfl
    simp [update_patient, hu, hs, hpm, hmk]
  refine ⟨main, ?_, ?_⟩
  · have h0 := main {} rfl (show (overlay p ({} : PatientUpdate)).height ≠ 0 from hh)
    rw [h0, show (overlay p ({} : PatientUpdate)).dumpBody = p.dumpBody from rfl,
      alSet_of_alGet hs]
  · intro w hw
    have hu : ({ weight := some (some w) } : PatientUpdate).validB = true := by
      simp [PatientUpdate.validB, hw]
    have h1 := main { weight := some (some w) } hu
      (show (overlay p { weight := some (some w) }).height ≠ 0 from hh)
    rw [h1, show (overlay p { weight := some (some w) } : Patient).dumpBody =
      Patient.dumpBody { p with weight := w } from rfl]

/-- Witness for C3 at the Ann store: the empty patch is a no-op and a
weight-only patch rewrites the record to the overlaid one. -/
theorem update_merge_overlay_witness :
    update_patient annStore "P001" {} = .ok annStore ∧
    update_patient annStore "P001" { weight := some (some 80) } =
      .ok (alSet annStore "P001" (Patient.dumpBody { ann with weight := 80 })) := by
  have h := update_merge_overlay annStore "P001" ann rfl
    (by norm_num [ann, Patient.validB]) (by norm_num [ann])
  exact ⟨h.2.1, h.2.2 80 (by norm_num)⟩

/-- C10: a patch field explicitly set to null behaves exactly like an
omitted field: `update` has the same result (store and error alike) on a
patch and on the same patch with its null fields dropped, so no stored
field can be cleared through update. -/
theorem null_patch_same_as_omitted (s : Store) (id : String) (u : PatientUpdate) :
    update_patient s id u = update_patient s id u.eraseNulls := by
  unfold update_patient
  rw [validB_eraseNulls]
  simp only [mergeObj_eraseNulls]

/-- C5: for every record with defined bmi, `bmi_category` is computed from
the bmi value by the threshold chain: "Underweight" iff bmi < 18.5,
"Normal weight" iff 18.5 ≤ bmi < 24.9, "Overweight" iff 24.9 ≤ bmi < 29.9,
"Obesity" iff bmi ≥ 29.9; at the boundaries, 18.5 ↦ "Normal weight",
24.9 ↦ "Overweight", 29.9 ↦ "Obesity". -/
theorem bmi_category_thresholds (p : Patient) (b : ℚ) (hb : p.bmi = some b) :
    p.bmi_category = some (bmiCategory b) ∧
    (bmiCategory b = "Underweight" ↔ b < 18.5) ∧
    (bmiCategory b = "Normal weight" ↔ 18.5 ≤ b ∧ b < 24.9) ∧
    (bmiCategory b = "Overweight" ↔ 24.9 ≤ b ∧ b < 29.9) ∧
    (bmiCategory b = "Obesity" ↔ 29.9 ≤ b) ∧
    bmiCategory (18.5 : ℚ) = "Normal weight" ∧
    bmiCategory (24.9 : ℚ) = "Overweight" ∧
    bmiCategory (29.9 : ℚ) = "Obesity" := by
  obtain ⟨h1, h2, h3, h4⟩ := bmiCategory_iff b
  exact ⟨by simp [Patient.bmi_category, hb], h1, h2, h3, h4,
    by norm_num [bmiCategory], by norm_num [bmiCategory], by norm_num [bmiCategory]⟩

/-- Witness for C5 at the example record of the spec (bmi 23.44). -/
theorem bmi_category_thresholds_witness :
    ann.bmi_category = some (bmiCategory (586/25 : ℚ)) :=
  (bmi_category_thresholds ann (586/25)
    (by norm_num [Patient.bmi, Patient.bmiValue, round2, roundHalfEven, ann])).1

/-- C4: a candidate with `height = 0` passes the `ge=0` range check on
height, yet evaluating the `bmi` computed field raises `ZeroDivisionError`
(returns no value) instead of producing a number. -/
theorem zero_height_bmi_faults (p : Patient) (h : p.height = 0) :
    decide ((0 : ℚ) ≤ p.height) = true ∧ p.bmi = none := by
  rw [h]
  exact ⟨by decide, by simp [Patient.bmi, h]⟩

/-- Witness for C4 at a concrete zero-height patient. -/
theorem zero_height_bmi_faults_witness : zeroHeightP.bmi = none :=
  (zero_height_bmi_faults zeroHeightP rfl).2

/-- C9: deleting an id that is present succeeds and a subsequent lookup of
that id returns NotFound; deleting an absent id returns NotFound and the
persisted store is unchanged. -/
theorem delete_then_get_notFound (s : Store) (id : String) :
    ((alGet s id).isSome = true →
      delete_patient s id = .ok (alErase s id) ∧
      view_patient (alErase s id) id = .error .notFound) ∧
    ((alGet s id).isSome = false →
      delete_patient s id = .error .notFound ∧
      stateAfter s (delete_patient s id) = s) := by
  constructor
  · intro h
    refine ⟨by simp [delete_patient, h], ?_⟩
    simp [view_patient, alGet_alErase]
  · intro h
    have : delete_patient s id = .error .notFound := by simp [delete_patient, h]
    exact ⟨this, by simp [stateAfter, this]⟩

/-- Witness for C9: delete a present id, and delete an absent id. -/
theorem delete_then_get_notFound_witness :
    (delete_patient annStore "P001" = .ok (alErase annStore "P001") ∧
      view_patient (alErase annStore "P001") "P001" = .error .notFound) ∧
    (delete_patient annStore "QQ" = .error .notFound ∧
      stateAfter annStore (delete_patient annStore "QQ") = annStore) :=
  ⟨(delete_then_get_notFound annStore "P001").1 (by decide),
   (delete_then_get_notFound annStore "QQ").2 (by decide)⟩

end PatientApp

namespace PatientApp

/-- C1: evaluating `sort_patients` at a store whose records have ages
[30, 10, 20]. The source passes `True` to `reverse=` when the order is `asc`,
so `asc` returns the ages descending [30, 20, 10] and `desc` returns them
ascending [10, 20, 30] — the opposite of the claimed orders. -/
theorem sort_asc_is_descending :
    (sort_patients sortStore "age" "asc").map (List.map (fun o => alGet o "age")) =
      .ok [some (.int 30), some (.int 20), some (.int 10)] ∧
    (sort_patients sortStore "age" "desc").map (List.map (fun o => alGet o "age")) =
      .ok [some (.int 10), some (.int 20), some (.int 30)] := by
  constructor <;>
    norm_num [sort_patients, sortStore, validSortFields, stableSort, insertStable, getNum, alGet,
      Patient.dumpBody, pAge30, pAge10, pAge20, Except.map,
      (show ("name" : String) ≠ "age" by decide), (show ("city" : String) ≠ "age" by decide),
      (show ("desc" : String) ≠ "asc" by decide)]

/-- Counterexample to C2: creating Ann writes a body whose keys include
`bmi` and `bmi_category` (eight keys, not six), with the derived values
stored. -/
theorem create_writes_derived_fields :
    add_patient [] ann = .ok [("P001", ann.dumpBody)] ∧
    ann.dumpBody.map Prod.fst =
      ["name", "city", "age", "gender", "height", "weight", "bmi", "bmi_category"] ∧
    alGet ann.dumpBody "bmi" = some (.rat (586/25)) ∧
    alGet ann.dumpBody "bmi_category" = some (.str "Normal weight") := by
  refine ⟨?_, rfl, ?_, ?_⟩
  · norm_num [add_patient, ann, Patient.validB, Patient.model_dump, alGet, alSet]
  · norm_num [ann, Patient.dumpBody, Patient.bmiValue, round2, roundHalfEven, alGet,
      (show ("name" : String) ≠ "bmi" by decide), (show ("city" : String) ≠ "bmi" by decide),
      (show ("age" : String) ≠ "bmi" by decide), (show ("gender" : String) ≠ "bmi" by decide),
      (show ("height" : String) ≠ "bmi" by decide), (show ("weight" : String) ≠ "bmi" by decide)]
  · norm_num [ann, Patient.dumpBody, Patient.bmiValue, round2, roundHalfEven, bmiCategory, alGet,
      (show ("name" : String) ≠ "bmi_category" by decide),
      (show ("city" : String) ≠ "bmi_category" by decide),
      (show ("age" : String) ≠ "bmi_category" by decide),
      (show ("gender" : String) ≠ "bmi_category" by decide),
      (show ("height" : String) ≠ "bmi_category" by decide),
      (show ("weight" : String) ≠ "bmi_category" by decide),
      (show ("bmi" : String) ≠ "bmi_category" by decide)]

/-- C2 as amended: every body the service persists (by create, and by any
successful update) is a dumped model containing the six stored fields plus
the recomputed `bmi` and `bmi_category`. -/
theorem persisted_body_contains_derived (s : Store) (p : Patient)
    (hp : p.validB = true) (hh : p.height ≠ 0) (hfresh : alGet s p.id = none) :
    add_patient s p = .ok (alSet s p.id p.dumpBody) ∧
    p.dumpBody.map Prod.fst =
      ["name", "city", "age", "gender", "height", "weight", "bmi", "bmi_category"] ∧
    alGet p.dumpBody "bmi" = some (.rat p.bmiValue) ∧
    alGet p.dumpBody "bmi_category" = some (.str (bmiCategory p.bmiValue)) ∧
    (∀ (id : String) (u : PatientUpdate) (s2 : Store),
      update_patient s id u = .ok s2 → ∃ q : Patient, alGet s2 id = some q.dumpBody) := by
  refine ⟨by simp [add_patient, hp, hfresh, Patient.model_dump, hh], rfl, rfl, rfl, ?_⟩
  intro id u s2 h
  unfold update_patient at h
  by_cases hv : u.validB = true
  case neg => simp [hv] at h
  rw [if_neg (not_not_intro hv)] at h
  rcases halG : alGet s id with _ | body <;> rw [halG] at h <;> simp only [] at h
  · simp at h
  rcases hparse : parsePatient (alSet (mergeObj body u) "id" (Value.str id)) with _ | q <;>
    rw [hparse] at h <;> simp only [] at h
  · simp at h
  rcases hdump : q.model_dump with _ | nb <;> rw [hdump] at h <;> simp only [] at h
  · simp at h
  obtain rfl := Except.ok.inj h
  exact ⟨q, by rw [modelDump_eq_some hdump]; exact alGet_alSet_same s id q.dumpBody⟩

/-- Witness for the amended C2 at Ann. -/
theorem persisted_body_contains_derived_witness :
    add_patient [] ann = .ok (alSet [] ann.id ann.dumpBody) :=
  (persisted_body_contains_derived [] ann (by norm_num [ann, Patient.validB])
    (by norm_num [ann]) rfl).1

/-- Counterexample to C6: a candidate with empty name and empty city
passes validation and create produces a stored record from it. -/
theorem empty_name_city_accepted :
    emptyNameP.validB = true ∧
    add_patient [] emptyNameP = .ok [("P9", emptyNameP.dumpBody)] := by
  constructor
  · norm_num [emptyNameP, Patient.validB]
  · norm_num [add_patient, emptyNameP, Patient.validB, Patient.model_dump, alGet, alSet]

/-- C6 as amended: validation checks only the numeric range constraints
and is entirely insensitive to the contents of `name` and `city`; empty
strings are accepted. -/
theorem validB_ignores_name_city (p : Patient) (n c : String) :
    Patient.validB { p with name := n, city := c } = p.validB := rfl

/-- Counterexample to C7: with id `P001` already in the store, a candidate
carrying that id but an out-of-range age fails with a validation error
(the body is validated before the duplicate check of the handler), not with
AlreadyExists. -/
theorem create_existing_invalid_fields :
    (alGet annStore badAgeP.id).isSome = true ∧
    add_patient annStore badAgeP = .error .validationError ∧
    ApiError.validationError ≠ ApiError.alreadyExists := by
  refine ⟨rfl, ?_, by decide⟩
  norm_num [add_patient, badAgeP, Patient.validB]

/-- C7 as amended: for an id already present, create fails with
AlreadyExists whenever the candidate passes validation (with an invalid
candidate it fails earlier with a validation error), and in either case
nothing is written to the store. -/
theorem addPatient_existing_id (s : Store) (p : Patient)
    (hid : (alGet s p.id).isSome = true) :
    (p.validB = true → add_patient s p = .error .alreadyExists) ∧
    (p.validB = false → add_patient s p = .error .validationError) ∧
    stateAfter s (add_patient s p) = s := by
  refine ⟨fun hv => by simp [add_patient, hv, hid], fun hv => by simp [add_patient, hv], ?_⟩
  rcases hv : p.validB
  · simp [stateAfter, add_patient, hv]
  · simp [stateAfter, add_patient, hv, hid]

/-- Witness for the amended C7: re-creating the id of Ann fails with
AlreadyExists. -/
theorem addPatient_existing_id_witness :
    add_patient annStore ann = .error .alreadyExists :=
  (addPatient_existing_id annStore ann (by decide)).1 (by norm_num [ann, Patient.validB])

/-- Counterexample to C8: a candidate with height 0 passes validation, yet
create faults with the unguarded division instead of storing it, so the
subsequent lookup returns NotFound rather than the created fields. -/
theorem create_zero_height_faults :
    zeroHeightP.validB = true ∧
    add_patient [] zeroHeightP = .error .arithmeticFault ∧
    view_patient (stateAfter [] (add_patient [] zeroHeightP)) "PZ" = .error .notFound := by
  have h : add_patient [] zeroHeightP = .error .arithmeticFault := by
    norm_num [add_patient, zeroHeightP, Patient.validB, Patient.model_dump, alGet]
  exact ⟨by norm_num [zeroHeightP, Patient.validB], h, by rw [h]; rfl⟩

/-- C8 as amended: for every valid field set with nonzero height and a
fresh id, create stores the dumped body and getById returns it, its six
stored entries equal to the fields given to create. -/
theorem create_then_get_roundtrip (s : Store) (p : Patient)
    (hp : p.validB = true) (hh : p.height ≠ 0) (hfresh : alGet s p.id = none) :
    add_patient s p = .ok (alSet s p.id p.dumpBody) ∧
    view_patient (alSet s p.id p.dumpBody) p.id = .ok p.dumpBody ∧
    alGet p.dumpBody "name" = some (.str p.name) ∧
    alGet p.dumpBody "city" = some (.str p.city) ∧
    alGet p.dumpBody "age" = some (.int p.age) ∧
    alGet p.dumpBody "gender" = some (.str p.gender.str) ∧
    alGet p.dumpBody "height" = some (.rat p.height) ∧
    alGet p.dumpBody "weight" = some (.rat p.weight) := by
  exact ⟨by simp [add_patient, hp, hfresh, Patient.model_dump, hh],
    by simp [view_patient, alGet_alSet_same], rfl, rfl, rfl, rfl, rfl, rfl⟩

/-- Witness for the amended C8 at Ann. -/
theorem create_then_get_roundtrip_witness :
    view_patient (alSet [] ann.id ann.dumpBody) ann.id = .ok ann.dumpBody :=
  (create_then_get_roundtrip [] ann (by norm_num [ann, Patient.validB])
    (by norm_num [ann]) rfl).2.1

end PatientApp
